import Mathlib

/-
Verification of the SmartCourt backend service (src/backend/main.py).

The service keeps a single shared dict LATEST_STATS, updated by a background
polling loop (_processing_loop) and read by HTTP handlers (api_stats and the
page routes).  We embed the Python dicts as association lists over a JSON-like
value type, the loop body as a function of the externally supplied behaviours
of process_stream_once and generate_insights, exceptions as explicit Except
values, and the filesystem seen by the page handlers as a partial map from
paths to file data.
-/

namespace SmartCourt

/-- JSON-like values: the payloads (stats snapshots, tips) that the service
stores and forwards are Python dicts / lists / strings / ints / None. -/
inductive JVal where
  | null : JVal
  | str : String → JVal
  | num : Int → JVal
  | arr : List JVal → JVal
  | obj : List (String × JVal) → JVal
deriving Repr

/-- A Python dict with string keys, as an insertion-ordered association list.
Every dict literal in main.py has distinct keys, so association-list lookup
matches Python dict lookup. -/
def PyDict : Type := List (String × JVal)

/-- Python dict.get(key, fallback): the value at the key, or the fallback when
the key is absent.  Embeds the calls LATEST_STATS.get("stats", {}) and
LATEST_STATS.get("tips", {}) in the error branch of _processing_loop. -/
def PyDict.get (d : PyDict) (k : String) (fallback : JVal) : JVal :=
  (List.lookup k d).getD fallback

/-- The initial value of the global LATEST_STATS (main.py line 45):
{"status": "starting", "stats": {}, "tips": {}}. -/
def LATEST_STATS_init : PyDict :=
  [("status", JVal.str "starting"), ("stats", JVal.obj []), ("tips", JVal.obj [])]

/-- The behaviour of the two external collaborators during one polling cycle:
the outcome of calling process_stream_once (a stats dict, or a raised
exception represented by its repr string), and the behaviour of
generate_insights on any stats value (tips, or a raised exception).
The loop supports both sync and async process_stream_once implementations
(direct await vs. asyncio.to_thread); both deliver a value or an exception
to the caller, which is all the loop body observes, so one Except covers
both. -/
structure Cycle where
  snapshot : Except String JVal
  insights : JVal → Except String JVal

/-- The dict stored by the inner except-handler when generate_insights raises:
{"error": "insights generation failed"}. -/
def insightsFailMarker : JVal :=
  JVal.obj [("error", JVal.str "insights generation failed")]

/-- The dict assigned to LATEST_STATS on a successful cycle:
{"status": "ok", "stats": stats, "tips": tips}. -/
def okResult (stats tips : JVal) : PyDict :=
  [("status", JVal.str "ok"), ("stats", stats), ("tips", tips)]

/-- The dict assigned to LATEST_STATS when process_stream_once raises:
{"status": "error", "error": repr(e),
 "stats": LATEST_STATS.get("stats", {}), "tips": LATEST_STATS.get("tips", {})}.
`prev` is the value of the global LATEST_STATS at the time of the handler. -/
def errorResult (e : String) (prev : PyDict) : PyDict :=
  [("status", JVal.str "error"), ("error", JVal.str e),
   ("stats", PyDict.get prev "stats" (JVal.obj [])),
   ("tips", PyDict.get prev "tips" (JVal.obj []))]

/-- A Python try/except block whose handler catches the exception and produces
a plain value (neither handler in _processing_loop re-raises). -/
def pyTry {α : Type} (body : Except String α) (handler : String → α) : α :=
  match body with
  | Except.ok a => a
  | Except.error e => handler e

/-- One iteration of _processing_loop (main.py lines 62-87), without the
trailing sleep: the new value of LATEST_STATS as a function of the external
behaviours and the previous value of the global. -/
def processing_loop_body (c : Cycle) (prev : PyDict) : PyDict :=
  match c.snapshot with
  | Except.ok stats =>
      okResult stats (pyTry (c.insights stats) (fun _ => insightsFailMarker))
  | Except.error e => errorResult e prev

/-- The body of the outer try of _processing_loop, before its except-handler
is taken into account: the snapshot call may propagate an exception (the
Except.error case), while the insights call is wrapped in the inner
try/except and so cannot. -/
def loop_body_attempt (c : Cycle) : Except String PyDict := do
  let stats ← c.snapshot
  let tips := pyTry (c.insights stats) (fun _ => insightsFailMarker)
  pure (okResult stats tips)

/-- One iteration of _processing_loop with exception propagation explicit:
an Except.error result would mean the iteration let an exception escape and
crash the background task.  The outer except-handler converts every failure
of the attempt into a stored error dict. -/
def processing_loop_body_exc (c : Cycle) (prev : PyDict) : Except String PyDict :=
  match loop_body_attempt c with
  | Except.ok d => Except.ok d
  | Except.error e => Except.ok (errorResult e prev)

/-- The value of LATEST_STATS after running the given sequence of polling
cycles, starting from the initial value. -/
def run_loop (cs : List Cycle) : PyDict :=
  cs.foldl (fun st c => processing_loop_body c st) LATEST_STATS_init

/-- An exception surfacing from an HTTP handler: an HTTPException raised by
the handler, or an exception the handler does not catch at all (the
UnicodeDecodeError that read_text raises on non-UTF-8 bytes). -/
inductive PyExn where
  | http (code : Nat) (detail : String) : PyExn
  | unicodeDecodeError : PyExn
deriving DecidableEq, Repr

/-- The /api/stats handler (main.py lines 127-132).  Its argument is the
value of the global LATEST_STATS, with none standing for Python None (the
handler checks `LATEST_STATS is None` defensively even though the program
always initialises the global to a dict).  Except.ok d is a 200 response
whose JSON body is d. -/
def api_stats (latest : Option PyDict) : Except PyExn PyDict :=
  match latest with
  | none => Except.error (PyExn.http 503 "Stats not available yet")
  | some d => Except.ok d

/-- A file on disk as observed through Path.read_text(encoding="utf-8"):
either its bytes decode to the string s (and the HTMLResponse body then
consists of exactly the same bytes, since strict UTF-8 decode/encode round
trips), or the file exists but its bytes are not valid UTF-8 and read_text
raises UnicodeDecodeError. -/
inductive FileData where
  | text (s : String) : FileData
  | invalid : FileData

/-- A filesystem state at request time: each path either holds a file or
does not exist. -/
def FS : Type := String → Option FileData

/-- _read_frontend_html (main.py lines 93-98): look up Path("frontend")/name;
if it does not exist, raise HTTPException(404, name + " not found"); else
return read_text(encoding="utf-8"), which raises UnicodeDecodeError on a
file that is not valid UTF-8 and that exception is not caught anywhere. -/
def read_frontend_html (fs : FS) (name : String) : Except PyExn String :=
  match fs ("frontend/" ++ name) with
  | none => Except.error (PyExn.http 404 (name ++ " not found"))
  | some (FileData.text s) => Except.ok s
  | some FileData.invalid => Except.error PyExn.unicodeDecodeError

/-- GET / (main.py lines 101-104). -/
def home (fs : FS) : Except PyExn String :=
  read_frontend_html fs "analysis.html"

/-- GET /analysis.html (main.py lines 107-109). -/
def analysis_page (fs : FS) : Except PyExn String :=
  read_frontend_html fs "analysis.html"

/-- GET /technique.html. -/
def technique_page (fs : FS) : Except PyExn String :=
  read_frontend_html fs "technique.html"

/-- GET /tactical.html. -/
def tactical_page (fs : FS) : Except PyExn String :=
  read_frontend_html fs "tactical.html"

/-- GET /highlights.html. -/
def highlights_page (fs : FS) : Except PyExn String :=
  read_frontend_html fs "highlights.html"

/-- The defined page routes: route path, handler, and the name of the backing
file read from the frontend directory. -/
def route_table : List (String × (FS → Except PyExn String) × String) :=
  [("/", home, "analysis.html"),
   ("/analysis.html", analysis_page, "analysis.html"),
   ("/technique.html", technique_page, "technique.html"),
   ("/tactical.html", tactical_page, "tactical.html"),
   ("/highlights.html", highlights_page, "highlights.html")]

/-- The scheduling phases at which the _processing_loop task is suspended and
the event loop can run HTTP handlers: at the await of the snapshot call
(await process_stream_once() or await asyncio.to_thread(...)), and at the
await of asyncio.sleep.  Everything between two awaits — in particular the
generate_insights call, the construction of the new dict, and the single
whole-value assignment to LATEST_STATS — runs without suspension, hence
atomically with respect to readers on the same event loop. -/
inductive Phase where
  | snapshotAwait : Phase
  | sleepAwait : Phase
deriving DecidableEq, Repr

/-- The state of the background task between scheduler steps: the current
value of the global LATEST_STATS, the external behaviours of the cycles not
yet run, and the suspension point the task is parked at. -/
structure TaskState where
  latest : PyDict
  pending : List Cycle
  phase : Phase

/-- The state of the background task right after startup_event spawns it:
the global holds its initial value and the task is about to await its first
snapshot. -/
def task_init (cs : List Cycle) : TaskState :=
  { latest := LATEST_STATS_init, pending := cs, phase := Phase.snapshotAwait }

/-- One resumption of the background task by the event loop.  Resuming at the
snapshot await delivers the cycle's snapshot outcome and then runs the whole
rest of the iteration body — insights, dict construction, and the single
assignment to LATEST_STATS — without suspension, parking at the sleep await.
Resuming at the sleep await starts the next iteration, parking at the next
snapshot await.  With an exhausted behaviour script the task stays parked. -/
def micro_step : TaskState → TaskState
  | { latest := l, pending := c :: rest, phase := Phase.snapshotAwait } =>
      { latest := processing_loop_body c l, pending := rest, phase := Phase.sleepAwait }
  | { latest := l, pending := [], phase := Phase.snapshotAwait } =>
      { latest := l, pending := [], phase := Phase.snapshotAwait }
  | { latest := l, pending := rest, phase := Phase.sleepAwait } =>
      { latest := l, pending := rest, phase := Phase.snapshotAwait }

/-- The stats dict of the worked example in the spec: {rally_count: 5}. -/
def snapEx : JVal := JVal.obj [("rally_count", JVal.num 5)]

/-- The tips dict of the worked example in the spec: {tips: ["good rally"]}. -/
def tipsEx : JVal := JVal.obj [("tips", JVal.arr [JVal.str "good rally"])]

/-- The worked example cycle: the snapshot function returns snapEx, the
insights transformer returns tipsEx. -/
def cycleEx : Cycle :=
  { snapshot := Except.ok snapEx, insights := fun _ => Except.ok tipsEx }

/-- A cycle whose snapshot call raises. -/
def cycleFail : Cycle :=
  { snapshot := Except.error "RuntimeError: camera offline",
    insights := fun _ => Except.ok tipsEx }

/-- A filesystem holding one frontend page whose bytes are not valid UTF-8. -/
def fs_invalid : FS := fun p =>
  if p = "frontend/analysis.html" then some FileData.invalid else none

/-- A filesystem holding only a valid analysis.html page. -/
def fs_good : FS := fun p =>
  if p = "frontend/analysis.html" then some (FileData.text "<html>ok</html>") else none

/-- A filesystem holding one non-UTF-8 technique.html page. -/
def fs_bad_technique : FS := fun p =>
  if p = "frontend/technique.html" then some FileData.invalid else none

/- ------------------------------------------------------------------ -/
/- Helper lemmas                                                      -/
/- ------------------------------------------------------------------ -/

/-- Every value the loop stores has a status of "ok" or "error". -/
theorem loop_body_status (c : Cycle) (prev : PyDict) :
    List.lookup "status" (processing_loop_body c prev) = some (JVal.str "ok") ∨
    List.lookup "status" (processing_loop_body c prev) = some (JVal.str "error") := by
  rcases c with ⟨snap, ins⟩
  cases snap with
  | ok s => exact Or.inl rfl
  | error e => exact Or.inr rfl

/-- Every value the loop stores has "stats" and "tips" keys. -/
theorem loop_body_keys (c : Cycle) (prev : PyDict) :
    (∃ v, List.lookup "stats" (processing_loop_body c prev) = some v) ∧
    (∃ v, List.lookup "tips" (processing_loop_body c prev) = some v) := by
  rcases c with ⟨snap, ins⟩
  cases snap with
  | ok s => exact ⟨⟨_, rfl⟩, ⟨_, rfl⟩⟩
  | error e => exact ⟨⟨_, rfl⟩, ⟨_, rfl⟩⟩

/-- A property of dicts that holds of everything the loop body produces is
preserved by any number of further cycles. -/
theorem run_loop_inv {P : PyDict → Prop}
    (hstep : ∀ c st, P (processing_loop_body c st)) :
    ∀ (cs : List Cycle) (st : PyDict), P st →
      P (List.foldl (fun st c => processing_loop_body c st) st cs) := by
  intro cs
  induction cs with
  | nil => intro st h; exact h
  | cons c rest ih => intro st _; exact ih _ (hstep c st)

/-- The global always has "stats" and "tips" keys, from startup on. -/
theorem run_loop_keys (cs : List Cycle) :
    (∃ v, List.lookup "stats" (run_loop cs) = some v) ∧
    (∃ v, List.lookup "tips" (run_loop cs) = some v) :=
  run_loop_inv
    (P := fun d => (∃ v, List.lookup "stats" d = some v) ∧
      (∃ v, List.lookup "tips" d = some v))
    (fun c st => loop_body_keys c st) cs LATEST_STATS_init
    ⟨⟨JVal.obj [], rfl⟩, ⟨JVal.obj [], rfl⟩⟩

/-- _read_frontend_html returns the decoded content of an existing valid
file, and a 404 whose detail starts with the filename for a missing file. -/
theorem read_frontend_html_spec (fs : FS) (name : String) :
    (∀ s, fs ("frontend/" ++ name) = some (FileData.text s) →
      read_frontend_html fs name = Except.ok s) ∧
    (fs ("frontend/" ++ name) = none →
      ∃ detail, read_frontend_html fs name = Except.error (PyExn.http 404 detail) ∧
        ∃ suffix, detail = name ++ suffix) := by
  constructor
  · intro s h
    simp [read_frontend_html, h]
  · intro h
    exact ⟨name ++ " not found", by simp [read_frontend_html, h], " not found", rfl⟩

/-- _read_frontend_html propagates the UnicodeDecodeError of read_text on an
existing file whose bytes are not valid UTF-8. -/
theorem read_frontend_html_invalid (fs : FS) (name : String)
    (hinv : fs ("frontend/" ++ name) = some FileData.invalid) :
    read_frontend_html fs name = Except.error PyExn.unicodeDecodeError := by
  simp [read_frontend_html, hinv]

/-- Appending one more cycle to a run applies one more loop iteration. -/
theorem run_loop_append_one (xs : List Cycle) (c : Cycle) :
    run_loop (xs ++ [c]) = processing_loop_body c (run_loop xs) := by
  simp [run_loop, List.foldl_append]

/-- One scheduler resumption preserves the linkage between the task state and
the number of cycles the run has completed. -/
theorem micro_step_inv (cs : List Cycle) (l : PyDict) (pending : List Cycle)
    (phase : Phase) (n : Nat)
    (hl : l = run_loop (cs.take n)) (hp : pending = cs.drop n) :
    ∃ m, (micro_step ⟨l, pending, phase⟩).latest = run_loop (cs.take m) ∧
         (micro_step ⟨l, pending, phase⟩).pending = cs.drop m := by
  cases phase with
  | sleepAwait =>
    refine ⟨n, ?_, ?_⟩ <;> simp [micro_step, hl, hp]
  | snapshotAwait =>
    cases pending with
    | nil =>
      refine ⟨n, ?_, ?_⟩ <;> simp [micro_step, hl, hp]
    | cons c rest =>
      have hdrop : cs.drop n = c :: rest := hp.symm
      have hget : cs[n]? = some c := by
        rw [← List.head?_drop, hdrop]
        rfl
      have htake : cs.take (n + 1) = cs.take n ++ [c] := by
        rw [List.take_succ, hget]
        rfl
      have hdrop1 : cs.drop (n + 1) = rest := by
        have h2 : cs.drop (n + 1) = (cs.drop n).drop 1 := by
          rw [List.drop_drop]
        rw [h2, hdrop]
        rfl
      refine ⟨n + 1, ?_, ?_⟩
      · simp [micro_step, htake, run_loop_append_one, hl]
      · simp [micro_step, hdrop1]

/- ------------------------------------------------------------------ -/
/- Claims                                                             -/
/- ------------------------------------------------------------------ -/

/-- Claim C1: one iteration of _processing_loop never propagates an
exception, whatever the snapshot function and insights transformer do
(either may raise anything): the iteration with explicit exception
propagation always completes with an Except.ok stored dict, equal to the
total loop body; and when the snapshot call raises, the stored dict has
status "error".  Hence the background task, and with it the server process,
never crashes due to a pipeline failure. -/
theorem loop_body_never_raises (c : Cycle) (prev : PyDict) :
    processing_loop_body_exc c prev = Except.ok (processing_loop_body c prev) ∧
    (∀ e, c.snapshot = Except.error e →
      List.lookup "status" (processing_loop_body c prev) = some (JVal.str "error")) := by
  rcases c with ⟨snap, ins⟩
  cases snap with
  | ok s =>
    refine ⟨rfl, ?_⟩
    intro e he
    cases he
  | error e =>
    refine ⟨rfl, ?_⟩
    intro f hf
    rfl

/-- Witness for C1: a concrete failing cycle on the initial state. -/
theorem loop_body_never_raises_witness :
    processing_loop_body_exc cycleFail LATEST_STATS_init =
      Except.ok (processing_loop_body cycleFail LATEST_STATS_init) ∧
    List.lookup "status" (processing_loop_body cycleFail LATEST_STATS_init) =
      some (JVal.str "error") :=
  ⟨(loop_body_never_raises cycleFail LATEST_STATS_init).1,
   (loop_body_never_raises cycleFail LATEST_STATS_init).2
     "RuntimeError: camera offline" rfl⟩

/-- Claim C2: when the snapshot call of a cycle raises, the stored dict after
that cycle has status "error", carries the failure description, and its
"stats" and "tips" entries equal those of the previous stored value (which
is the state reached by any earlier sequence of cycles): the last good
payload is carried forward, not cleared. -/
theorem snapshot_failure_preserves (cs : List Cycle) (e : String)
    (ins : JVal → Except String JVal) :
    List.lookup "status" (processing_loop_body ⟨Except.error e, ins⟩ (run_loop cs)) =
      some (JVal.str "error") ∧
    List.lookup "error" (processing_loop_body ⟨Except.error e, ins⟩ (run_loop cs)) =
      some (JVal.str e) ∧
    List.lookup "stats" (processing_loop_body ⟨Except.error e, ins⟩ (run_loop cs)) =
      List.lookup "stats" (run_loop cs) ∧
    List.lookup "tips" (processing_loop_body ⟨Except.error e, ins⟩ (run_loop cs)) =
      List.lookup "tips" (run_loop cs) := by
  obtain ⟨⟨vs, hs⟩, ⟨vt, ht⟩⟩ := run_loop_keys cs
  refine ⟨rfl, rfl, ?_, ?_⟩
  · show some (PyDict.get (run_loop cs) "stats" (JVal.obj [])) =
      List.lookup "stats" (run_loop cs)
    simp [PyDict.get, hs]
  · show some (PyDict.get (run_loop cs) "tips" (JVal.obj [])) =
      List.lookup "tips" (run_loop cs)
    simp [PyDict.get, ht]

/-- Witness for C2: a failing cycle right after startup carries the initial
empty payload forward. -/
theorem snapshot_failure_preserves_witness :
    List.lookup "stats"
        (processing_loop_body ⟨Except.error "boom", fun _ => Except.ok tipsEx⟩
          (run_loop [])) =
      List.lookup "stats" (run_loop []) :=
  (snapshot_failure_preserves [] "boom" (fun _ => Except.ok tipsEx)).2.2.1

/-- Claim C3: a cycle whose snapshot call returns s and whose insights call
returns t on s stores exactly {"status": "ok", "stats": s, "tips": t},
whatever the previous stored value was; and on the spec's worked example,
GET /api/stats after one cycle answers 200 with exactly
{"status": "ok", "stats": {"rally_count": 5},
 "tips": {"tips": ["good rally"]}}. -/
theorem success_overwrites (s t : JVal) (ins : JVal → Except String JVal)
    (h : ins s = Except.ok t) (prev : PyDict) :
    processing_loop_body { snapshot := Except.ok s, insights := ins } prev =
      okResult s t ∧
    api_stats (some (run_loop [cycleEx])) =
      Except.ok [("status", JVal.str "ok"),
                 ("stats", JVal.obj [("rally_count", JVal.num 5)]),
                 ("tips", JVal.obj [("tips", JVal.arr [JVal.str "good rally"])])] := by
  constructor
  · simp [processing_loop_body, pyTry, h]
  · rfl

/-- Witness for C3: the worked example cycle applied to the initial state. -/
theorem success_overwrites_witness :
    processing_loop_body
        { snapshot := Except.ok snapEx, insights := fun _ => Except.ok tipsEx }
        LATEST_STATS_init =
      okResult snapEx tipsEx :=
  (success_overwrites snapEx tipsEx (fun _ => Except.ok tipsEx) rfl
    LATEST_STATS_init).1

/-- Claim C4: a cycle whose snapshot call returns s but whose insights call
raises on s still stores status "ok" with stats s, and its "tips" entry is
the fixed failure-marker dict {"error": "insights generation failed"} — a
constant that depends neither on the previous stored value nor on any
transformer output. -/
theorem insights_failure_still_updates (s : JVal) (e : String)
    (ins : JVal → Except String JVal) (h : ins s = Except.error e) (prev : PyDict) :
    processing_loop_body { snapshot := Except.ok s, insights := ins } prev =
      okResult s insightsFailMarker ∧
    List.lookup "tips"
        (processing_loop_body { snapshot := Except.ok s, insights := ins } prev) =
      some insightsFailMarker := by
  have hbody :
      processing_loop_body { snapshot := Except.ok s, insights := ins } prev =
        okResult s insightsFailMarker := by
    simp [processing_loop_body, pyTry, h]
  exact ⟨hbody, by rw [hbody]; rfl⟩

/-- Witness for C4: a concrete transformer that always raises. -/
theorem insights_failure_still_updates_witness :
    processing_loop_body
        { snapshot := Except.ok snapEx,
          insights := fun _ => Except.error "KeyError: tips" }
        LATEST_STATS_init =
      okResult snapEx insightsFailMarker :=
  (insights_failure_still_updates snapEx "KeyError: tips"
    (fun _ => Except.error "KeyError: tips") rfl LATEST_STATS_init).1

/-- Claim C5: over every sequence of cycles, the stored status is one of
"starting", "ok", "error", and it is "starting" exactly when no cycle has
completed yet. -/
theorem status_invariant (cs : List Cycle) :
    (List.lookup "status" (run_loop cs) = some (JVal.str "starting") ∨
     List.lookup "status" (run_loop cs) = some (JVal.str "ok") ∨
     List.lookup "status" (run_loop cs) = some (JVal.str "error")) ∧
    (List.lookup "status" (run_loop cs) = some (JVal.str "starting") ↔ cs = []) := by
  cases cs with
  | nil => exact ⟨Or.inl rfl, ⟨fun _ => rfl, fun _ => rfl⟩⟩
  | cons c rest =>
    have h := run_loop_inv
      (P := fun d => List.lookup "status" d = some (JVal.str "ok") ∨
        List.lookup "status" d = some (JVal.str "error"))
      (fun c st => loop_body_status c st) rest
      (processing_loop_body c LATEST_STATS_init)
      (loop_body_status c LATEST_STATS_init)
    have hrl : run_loop (c :: rest) =
        List.foldl (fun st c => processing_loop_body c st)
          (processing_loop_body c LATEST_STATS_init) rest := rfl
    rw [hrl]
    rcases h with h | h
    · refine ⟨Or.inr (Or.inl h), ?_, ?_⟩
      · intro hs
        rw [h] at hs
        injection hs with hs1
        injection hs1 with hs2
        exact absurd hs2 (by decide)
      · intro hnil
        cases hnil
    · refine ⟨Or.inr (Or.inr h), ?_, ?_⟩
      · intro hs
        rw [h] at hs
        injection hs with hs1
        injection hs1 with hs2
        exact absurd hs2 (by decide)
      · intro hnil
        cases hnil

/-- Witness for C5: before the first cycle the status is "starting", and
after one failing cycle it no longer is. -/
theorem status_invariant_witness :
    List.lookup "status" (run_loop []) = some (JVal.str "starting") ∧
    ¬ List.lookup "status" (run_loop [cycleFail]) = some (JVal.str "starting") :=
  ⟨(status_invariant []).2.mpr rfl,
   fun h => List.noConfusion ((status_invariant [cycleFail]).2.mp h)⟩

/-- Claim C6: api_stats answers a 503 error exactly when the shared variable
is None; on any stored dict (whatever its status) it answers 200 with
exactly that dict; and on every state the program can actually put the
global into (its startup value, or the value after any run of cycles) the
503 branch is never taken. -/
theorem api_stats_spec (o : Option PyDict) :
    ((∃ detail, api_stats o = Except.error (PyExn.http 503 detail)) ↔ o = none) ∧
    (∀ d, api_stats (some d) = Except.ok d) ∧
    (∀ cs, api_stats (some (run_loop cs)) = Except.ok (run_loop cs)) := by
  refine ⟨⟨?_, ?_⟩, fun d => rfl, fun cs => rfl⟩
  · rintro ⟨detail, h⟩
    cases o with
    | none => rfl
    | some d => exact Except.noConfusion h
  · intro h
    subst h
    exact ⟨"Stats not available yet", rfl⟩

/-- Witness for C6: the None state answers 503, the startup state answers
200 with the stored dict. -/
theorem api_stats_spec_witness :
    api_stats (some LATEST_STATS_init) = Except.ok LATEST_STATS_init ∧
    (∃ detail, api_stats none = Except.error (PyExn.http 503 detail)) :=
  ⟨(api_stats_spec (some LATEST_STATS_init)).2.1 LATEST_STATS_init,
   (api_stats_spec none).1.mpr rfl⟩

/-- Counterexample to C7 as stated: a backing file can exist and yet the
handler returns neither a 200 body nor a 404 — with a file whose bytes are
not valid UTF-8, the read raises an uncaught UnicodeDecodeError. -/
theorem pages_claim_counterexample :
    fs_invalid "frontend/analysis.html" = some FileData.invalid ∧
    home fs_invalid = Except.error PyExn.unicodeDecodeError ∧
    (∀ b : String, home fs_invalid ≠ Except.ok b) ∧
    (∀ c d, home fs_invalid ≠ Except.error (PyExn.http c d)) := by
  refine ⟨rfl, rfl, ?_, ?_⟩
  · intro b h
    exact Except.noConfusion h
  · intro c d h
    have h2 : PyExn.unicodeDecodeError = PyExn.http c d := by
      have h3 : home fs_invalid = Except.error PyExn.unicodeDecodeError := rfl
      rw [h3] at h
      injection h
    exact PyExn.noConfusion h2

/-- Claim C7 as amended: for every defined page route and every filesystem
state, when the backing file exists in the frontend directory and its bytes
are valid UTF-8 text, the handler returns 200 with exactly that content;
when the file does not exist, the handler fails with a 404 whose detail
contains the filename. -/
theorem pages_spec (route : String) (handler : FS → Except PyExn String)
    (fname : String) (hmem : (route, handler, fname) ∈ route_table) (fs : FS) :
    (∀ s, fs ("frontend/" ++ fname) = some (FileData.text s) →
      handler fs = Except.ok s) ∧
    (fs ("frontend/" ++ fname) = none →
      ∃ detail, handler fs = Except.error (PyExn.http 404 detail) ∧
        ∃ suffix, detail = fname ++ suffix) := by
  simp only [route_table, List.mem_cons, List.mem_singleton, Prod.mk.injEq,
    List.not_mem_nil, or_false] at hmem
  rcases hmem with ⟨h1, h2, h3⟩ | ⟨h1, h2, h3⟩ | ⟨h1, h2, h3⟩ | ⟨h1, h2, h3⟩ |
    ⟨h1, h2, h3⟩ <;>
    subst h2 <;> subst h3 <;>
    exact read_frontend_html_spec fs _

/-- Witness for C7 (amended): an existing valid page is served verbatim and
a missing page yields a 404 naming the file. -/
theorem pages_spec_witness :
    analysis_page fs_good = Except.ok "<html>ok</html>" ∧
    (∃ detail, technique_page fs_good = Except.error (PyExn.http 404 detail) ∧
      ∃ suffix, detail = "technique.html" ++ suffix) :=
  ⟨(pages_spec "/analysis.html" analysis_page "analysis.html"
      (by simp [route_table]) fs_good).1 "<html>ok</html>" rfl,
   (pages_spec "/technique.html" technique_page "technique.html"
      (by simp [route_table]) fs_good).2 rfl⟩

/-- Claim C8: the global LATEST_STATS is replaced only by a single
whole-value assignment inside one unsuspended stretch of the loop body, so
at every point where a request handler can run (every event-loop scheduling
step), the value it reads is exactly the complete record produced by some
prefix of the completed cycles — never a mix of fields from different
cycles. -/
theorem readers_observe_whole_records (cs : List Cycle) (k : Nat) :
    ∃ n, (micro_step^[k] (task_init cs)).latest = run_loop (cs.take n) := by
  suffices h : ∃ n, (micro_step^[k] (task_init cs)).latest = run_loop (cs.take n) ∧
      (micro_step^[k] (task_init cs)).pending = cs.drop n by
    exact h.imp fun n hn => hn.1
  induction k with
  | zero => exact ⟨0, rfl, rfl⟩
  | succ k ih =>
    obtain ⟨n, hl, hp⟩ := ih
    rw [Function.iterate_succ_apply']
    rcases hst : micro_step^[k] (task_init cs) with ⟨l, pending, phase⟩
    rw [hst] at hl hp
    exact micro_step_inv cs l pending phase n hl hp

/-- Claim C9: the handlers for the routes "/" and "/analysis.html" are the
same function of the filesystem: both read frontend/analysis.html and
return identical responses on every filesystem state. -/
theorem home_eq_analysis_page (fs : FS) :
    home fs = analysis_page fs ∧
    home fs = read_frontend_html fs "analysis.html" :=
  ⟨rfl, rfl⟩

/-- Claim C10: the page handlers are not total over all existing files: when
the backing file exists but its bytes are not valid UTF-8, the handler
propagates an uncaught UnicodeDecodeError, producing neither the 200 nor
the 404 outcome. -/
theorem pages_invalid_utf8 (route : String) (handler : FS → Except PyExn String)
    (fname : String) (hmem : (route, handler, fname) ∈ route_table) (fs : FS)
    (hinv : fs ("frontend/" ++ fname) = some FileData.invalid) :
    handler fs = Except.error PyExn.unicodeDecodeError ∧
    (∀ b : String, handler fs ≠ Except.ok b) ∧
    (∀ c d, handler fs ≠ Except.error (PyExn.http c d)) := by
  simp only [route_table, List.mem_cons, List.mem_singleton, Prod.mk.injEq,
    List.not_mem_nil, or_false] at hmem
  have hbody : handler fs = Except.error PyExn.unicodeDecodeError := by
    rcases hmem with ⟨h1, h2, h3⟩ | ⟨h1, h2, h3⟩ | ⟨h1, h2, h3⟩ | ⟨h1, h2, h3⟩ |
      ⟨h1, h2, h3⟩ <;>
      subst h2 <;> subst h3 <;>
      exact read_frontend_html_invalid fs _ hinv
  refine ⟨hbody, ?_, ?_⟩
  · intro b h
    rw [hbody] at h
    exact Except.noConfusion h
  · intro c d h
    rw [hbody] at h
    injection h with h2
    exact PyExn.noConfusion h2

/-- Witness for C10: a concrete non-UTF-8 technique.html page. -/
theorem pages_invalid_utf8_witness :
    technique_page fs_bad_technique = Except.error PyExn.unicodeDecodeError :=
  (pages_invalid_utf8 "/technique.html" technique_page "technique.html"
    (by simp [route_table]) fs_bad_technique rfl).1

end SmartCourt
